import Mathlib

/-!
Verification of the IDM configuration entity synchronization engine
(`src/ops/IdmConfigOps.ts`, `src/api/IdmConfigApi.ts`) against its
natural-language specification.

The shallow embedding below translates the TypeScript source:
HTTP calls of the out-of-scope `ConfigStore` collaborator are modelled as an
oracle structure of response values, promises as `Except Err` outcomes, and
console side effects (printError / printMessage / progress indicators) as
explicit fields of the result records.
-/

/-- An IDM config entity. The remote store owns the body; the engine treats it
as an opaque value, so the body is abstracted to a `Nat`. The `_id` field is
the path-like entity id (e.g. `emailTemplate/frOnboarding`). -/
structure Entity where
  _id : String
  body : Nat
deriving DecidableEq, Repr

/-- A config entity stub, as returned by the bulk stub listing call
(`IdmConfigApi.getConfigStubs`): id plus pid / optional factory pid. -/
structure IdmConfigStub where
  _id : String
  pid : String
  factoryPid : Option String
deriving DecidableEq, Repr

/-- The HTTP failure details of a store call: status code, error reason,
message and axios error code, as read by the classification logic
(`error.httpStatus`, `error.httpErrorReason`, `error.httpMessage`,
`error.httpCode`). -/
structure HttpErrInfo where
  status : Nat
  errorReason : String
  message : String
  code : String
deriving DecidableEq, Repr

/-- Modelled from the spec: the repository error type `FrodoError` is not under
`src/`; the spec (section 3) describes an `OperationError` carrying HTTP status,
reason/message and an optional wrapped cause, and an `AggregateError` wrapping an
ordered list of per-item errors. `http` is a raw store error, `frodo msg cause`
is `new FrodoError(msg, cause)` with a single (or no) cause, and `frodoAgg msg
causes` is `new FrodoError(msg, errorArray)` wrapping a list of errors. -/
inductive Err where
  | http (info : HttpErrInfo) : Err
  | frodo (message : String) (cause : Option Err) : Err
  | frodoAgg (message : String) (causes : List Err) : Err

/-- Modelled from the spec: `FrodoError` (not under `src/`) exposes the HTTP
status of its wrapped cause, so classification code can match on the wrapper. -/
def Err.httpStatus : Err → Option Nat
  | .http info => some info.status
  | .frodo _ (some cause) => cause.httpStatus
  | .frodo _ none => none
  | .frodoAgg _ _ => none

/-- Modelled from the spec: the HTTP error reason of the wrapped cause. -/
def Err.httpErrorReason : Err → Option String
  | .http info => some info.errorReason
  | .frodo _ (some cause) => cause.httpErrorReason
  | .frodo _ none => none
  | .frodoAgg _ _ => none

/-- Modelled from the spec: the HTTP message of the wrapped cause. -/
def Err.httpMessage : Err → Option String
  | .http info => some info.message
  | .frodo _ (some cause) => cause.httpMessage
  | .frodo _ none => none
  | .frodoAgg _ _ => none

/-- Modelled from the spec: the axios error code of the wrapped cause. -/
def Err.httpCode : Err → Option String
  | .http info => some info.code
  | .frodo _ (some cause) => cause.httpCode
  | .frodo _ none => none
  | .frodoAgg _ _ => none

/-- Number of single-cause `frodo` wrappers around an error; used to show a
wrapped error is never equal to the error it wraps. -/
def Err.depth : Err → Nat
  | .http _ => 0
  | .frodo _ (some cause) => cause.depth + 1
  | .frodo _ none => 0
  | .frodoAgg _ _ => 0

/-- True exactly for the aggregate (error-list) form of `FrodoError`. -/
def Err.isAggregate : Err → Bool
  | .frodoAgg _ _ => true
  | _ => false

/-- Modelled from the spec: `Constants.CLOUD_DEPLOYMENT_TYPE_KEY` (the shared
constants module is not under `src/`); the engine only compares the ambient
deployment type against this key, so its concrete value is irrelevant. -/
def CLOUD_DEPLOYMENT_TYPE_KEY : String := "cloud"

/-- The ambient library state (`shared/State`, not under `src/`): the engine
reads the current deployment type and the export metadata from it. -/
structure State where
  deploymentType : String
  meta : String
deriving DecidableEq, Repr

/-- The out-of-scope `ConfigStore` collaborator (spec section 6): one response
per point operation. A `Except.error` value is a rejected HTTP call carrying
the raw store error. -/
structure Store where
  listEntities : Except Err (List Entity)
  listStubs : Except Err (List IdmConfigStub)
  listByType : String → Except Err (List Entity)
  getEntity : String → Except Err Entity
  putEntity : String → Entity → Except Err Entity
  deleteEntity : String → Except Err Entity

/-- `readConfigEntities`: bulk body fetch, wrapping a listing failure. -/
def readConfigEntities (st : Store) : Except Err (List Entity) :=
  match st.listEntities with
  | Except.ok result => Except.ok result
  | Except.error error =>
      Except.error (Err.frodo "Error reading config entities" (some error))

/-- `readConfigEntityStubs`: stub listing, wrapping a listing failure. -/
def readConfigEntityStubs (st : Store) : Except Err (List IdmConfigStub) :=
  match st.listStubs with
  | Except.ok result => Except.ok result
  | Except.error error =>
      Except.error (Err.frodo "Error reading config entity stubs" (some error))

/-- `readConfigEntitiesByType`: type-filtered bulk fetch, wrapping a failure. -/
def readConfigEntitiesByType (st : Store) (type : String) :
    Except Err (List Entity) :=
  match st.listByType type with
  | Except.ok result => Except.ok result
  | Except.error error =>
      Except.error (Err.frodo "Error reading config entities by type" (some error))

/-- `readConfigEntity`: single-entity fetch, wrapping a failure with the id. -/
def readConfigEntity (st : Store) (entityId : String) : Except Err Entity :=
  match st.getEntity entityId with
  | Except.ok result => Except.ok result
  | Except.error error =>
      Except.error
        (Err.frodo ("Error reading config entity " ++ entityId) (some error))

/-- The default-realm system templates protected in the cloud offering
(`AIC_PROTECTED_ENTITIES` in `IdmConfigOps.ts`). -/
def AIC_PROTECTED_ENTITIES : List String :=
  [ "emailTemplate/frEmailUpdated"
  , "emailTemplate/frForgotUsername"
  , "emailTemplate/frOnboarding"
  , "emailTemplate/frPasswordUpdated"
  , "emailTemplate/frProfileUpdated"
  , "emailTemplate/frResetPassword"
  , "emailTemplate/frUsernameUpdated" ]

/-- The config entity ids that legitimately never exist in some deployments
(`IDM_UNAVAILABLE_ENTITIES` in `IdmConfigOps.ts`). -/
def IDM_UNAVAILABLE_ENTITIES : List String :=
  [ "script"
  , "notificationFactory"
  , "apiVersion"
  , "metrics"
  , "repo.init"
  , "endpoint/validateQueryFilter"
  , "endpoint/oauthproxy"
  , "external.rest"
  , "scheduler"
  , "org.apache.felix.fileinstall/openidm"
  , "cluster"
  , "endpoint/mappingDetails"
  , "fieldPolicy/teammember" ]

/-- The export bundle: provenance metadata plus the id-keyed entity map
(`ConfigEntityExportInterface`). The JS object `idm` is modelled as a lookup
function from ids to entities. -/
structure ConfigEntityExportInterface where
  meta : String
  idm : String → Option Entity

/-- `createConfigEntityExportTemplate`: empty bundle with metadata attached. -/
def createConfigEntityExportTemplate (state : State) :
    ConfigEntityExportInterface :=
  { meta := state.meta, idm := fun _ => none }

/-- The per-entity fetch of the export loop: `readConfigEntity(...)` with the
attached `.catch` handler. The first component is the value the settled promise
contributes to `results` (the handler returns `undefined` on failure, modelled
as `none`). The second component records the error-level `printMessage`
escalation; the two `printMessage` calls of the handler are abstracted to the
escalated entity id. The three negated conjuncts mirror the classification in
the source: cloud-unavailable 403, allow-listed 404 "Not Found", and the
legacy file-install 404 message. -/
def exportFetchOne (st : Store) (entityId : String) :
    Option Entity × List String :=
  match readConfigEntity st entityId with
  | Except.ok result => (some result, [])
  | Except.error error =>
      ( none
      , if ¬(error.httpStatus = some 403 ∧
              error.httpMessage =
                some "This operation is not available in ForgeRock Identity Cloud.") ∧
           ¬(entityId ∈ IDM_UNAVAILABLE_ENTITIES ∧
              error.httpStatus = some 404 ∧
              error.httpErrorReason = some "Not Found") ∧
           ¬(error.httpStatus = some 404 ∧
              error.httpMessage =
                some "No configuration exists for id org.apache.felix.fileinstall/openidm")
        then [entityId]
        else [] )

/-- The result-insertion loop of `exportConfigEntities`: null results are
skipped, others are inserted into the bundle keyed by their own `_id`. -/
def insertResults (acc : ConfigEntityExportInterface) :
    List (Option Entity) → ConfigEntityExportInterface
  | [] => acc
  | none :: rest => insertResults acc rest
  | some result :: rest =>
      insertResults
        { acc with
          idm := fun k => if k = result._id then some result else acc.idm k }
        rest

/-- One observed run of `exportConfigEntities`. `outcome` is the settled
promise: `Except.error` would be a rejection, `Except.ok none` is resolution
with `undefined` (the implicit return after the outer catch), `Except.ok
(some b)` is resolution with the bundle. `printed` records `printError` calls,
`escalatedIds` the error-level `printMessage` escalations (by entity id),
`startTotal` the progress-indicator total, and `reportedExportCount` the count
N in the terminal summary message `Exported N config entities.`. -/
structure ExportRun where
  outcome : Except Err (Option ConfigEntityExportInterface)
  printed : List Err
  escalatedIds : List String
  startTotal : Option Nat
  reportedExportCount : Option Nat

/-- `exportConfigEntities`: list the working set, fan out per-entity refetches
(each with its swallowing `.catch`), assemble the bundle from non-null results,
and stop the progress indicator with the working-set count. A listing failure
is caught by the outer catch, printed via `printError`, and the function falls
through, resolving with `undefined`. -/
def exportConfigEntities (st : Store) (state : State) : ExportRun :=
  match readConfigEntities st with
  | Except.error error =>
      { outcome := Except.ok none
      , printed := [error]
      , escalatedIds := []
      , startTotal := none
      , reportedExportCount := none }
  | Except.ok configurations =>
      let fetches := configurations.map (fun c => exportFetchOne st c._id)
      let results := fetches.map Prod.fst
      let escalated := (fetches.map Prod.snd).flatten
      let exportData :=
        insertResults (createConfigEntityExportTemplate state) results
      { outcome := Except.ok (some exportData)
      , printed := []
      , escalatedIds := escalated
      , startTotal := some configurations.length
      , reportedExportCount := some configurations.length }

/-- The successfully refetched entities of an export working set, in order:
the non-null settled values of the per-entity fetches. -/
def exportSuccesses (st : Store) (configurations : List Entity) : List Entity :=
  configurations.filterMap (fun c => (exportFetchOne st c._id).1)

/-- `ConfigEntityImportOptions`: when `validate` is set, script hooks are
checked before any store call. -/
structure ConfigEntityImportOptions where
  validate : Bool
deriving DecidableEq, Repr

/-- `updateConfigEntity`: upsert one entity via the store PUT, wrapping a
failure with the id. -/
def updateConfigEntity (st : Store) (entityId : String) (entityData : Entity) :
    Except Err Entity :=
  match st.putEntity entityId entityData with
  | Except.ok result => Except.ok result
  | Except.error error =>
      Except.error
        (Err.frodo ("Error updating config entity " ++ entityId) (some error))

/-- The suppression test of `importConfigEntities`: cloud deployment, protected
entity, 403 with the bad-request axios code. -/
def importSuppressed (state : State) (entityId : String) (error : Err) : Prop :=
  state.deploymentType = CLOUD_DEPLOYMENT_TYPE_KEY ∧
  entityId ∈ AIC_PROTECTED_ENTITIES ∧
  error.httpStatus = some 403 ∧
  error.httpCode = some "ERR_BAD_REQUEST"

instance (state : State) (entityId : String) (error : Err) :
    Decidable (importSuppressed state entityId error) := by
  unfold importSuppressed; infer_instance

/-- The sequential loop of `importConfigEntities`, accumulating the `response`
list, the `errors` list and the trace of ids for which the store upsert was
invoked. A validation failure records its error and moves on without a store
call; an upsert failure is either suppressed or recorded; processing never
stops early. -/
def importLoop (st : Store) (state : State)
    (areScriptHooksValid : Entity → Bool) (options : ConfigEntityImportOptions) :
    List (String × Entity) → List Entity → List Err → List String →
      List Entity × List Err × List String
  | [], response, errors, putCalls => (response, errors, putCalls)
  | (entityId, entityData) :: rest, response, errors, putCalls =>
    if options.validate = true ∧ areScriptHooksValid entityData = false then
      importLoop st state areScriptHooksValid options rest response
        (errors ++
          [Err.frodo ("Invalid script hook in the config object " ++ entityId) none])
        putCalls
    else
      match updateConfigEntity st entityId entityData with
      | Except.ok result =>
          importLoop st state areScriptHooksValid options rest
            (response ++ [result]) errors (putCalls ++ [entityId])
      | Except.error error =>
          if importSuppressed state entityId error then
            importLoop st state areScriptHooksValid options rest
              response errors (putCalls ++ [entityId])
          else
            importLoop st state areScriptHooksValid options rest
              response (errors ++ [error]) (putCalls ++ [entityId])

/-- One observed run of `importConfigEntities`: the settled promise plus the
trace of attempted store upserts. -/
structure ImportRun where
  outcome : Except Err (List Entity)
  putCalls : List String

/-- `importConfigEntities`: iterate the bundle ids in order (`Object.keys`
iteration is modelled by the association-list order), then reject with the
aggregate error exactly when at least one failure was recorded. The script
hook validator (`areScriptHooksValid`, a utility outside `src/`) is passed as
a predicate parameter; per the spec it is a pure validation predicate on the
entity body. -/
def importConfigEntities (st : Store) (state : State)
    (areScriptHooksValid : Entity → Bool) (options : ConfigEntityImportOptions)
    (importData : List (String × Entity)) : ImportRun :=
  let r := importLoop st state areScriptHooksValid options importData [] [] []
  { outcome :=
      if r.2.1.isEmpty then Except.ok r.1
      else Except.error (Err.frodoAgg "Error importing config entities" r.2.1)
  , putCalls := r.2.2 }

/-- The failure, if any, that processing one bundle entry records: the
validation error when validation is on and fails, otherwise the wrapped upsert
error unless it is suppressed. Defined entry-by-entry to state that the batch
outcome is pointwise (no short-circuit). -/
def entryRecordedFailure (st : Store) (state : State)
    (areScriptHooksValid : Entity → Bool) (options : ConfigEntityImportOptions)
    (p : String × Entity) : Option Err :=
  if options.validate = true ∧ areScriptHooksValid p.2 = false then
    some (Err.frodo ("Invalid script hook in the config object " ++ p.1) none)
  else
    match updateConfigEntity st p.1 p.2 with
    | Except.ok _ => none
    | Except.error error =>
        if importSuppressed state p.1 error then none else some error

/-- The upserted entity, if any, that processing one bundle entry appends to
the response list. -/
def entryAppliedResult (st : Store) (state : State)
    (areScriptHooksValid : Entity → Bool) (options : ConfigEntityImportOptions)
    (p : String × Entity) : Option Entity :=
  if options.validate = true ∧ areScriptHooksValid p.2 = false then none
  else
    match updateConfigEntity st p.1 p.2 with
    | Except.ok result => some result
    | Except.error _ => none

/-- The store upsert attempt, if any, that processing one bundle entry makes:
every id is attempted except those failing prior validation. -/
def entryPutAttempt (areScriptHooksValid : Entity → Bool)
    (options : ConfigEntityImportOptions) (p : String × Entity) :
    Option String :=
  if options.validate = true ∧ areScriptHooksValid p.2 = false then none
  else some p.1

/-- One observed run of a bulk delete: the settled promise plus the trace of
ids for which the store delete was invoked. -/
structure DeleteRun where
  outcome : Except Err (List Entity)
  deleteCalls : List String

/-- The sequential per-id delete loop shared by `deleteConfigEntities` and
`deleteConfigEntitiesByType`: each successful delete is appended to `result`,
each failure is appended (raw, unwrapped) to `errors`, and the loop never
stops early. -/
def deleteLoop (st : Store) :
    List String → List Entity → List Err → List String →
      List Entity × List Err × List String
  | [], result, errors, calls => (result, errors, calls)
  | entityId :: rest, result, errors, calls =>
    match st.deleteEntity entityId with
    | Except.ok r => deleteLoop st rest (result ++ [r]) errors (calls ++ [entityId])
    | Except.error e => deleteLoop st rest result (errors ++ [e]) (calls ++ [entityId])

/-- `deleteConfigEntities`: list the stubs, delete each by id. A failure of the
stub listing itself is caught by the outer catch and pushed onto the same
`errors` list, so it is raised through the same aggregate
`FrodoError("Error deleting config entities", errors)` as per-id failures. -/
def deleteConfigEntities (st : Store) : DeleteRun :=
  match readConfigEntityStubs st with
  | Except.error error =>
      { outcome := Except.error (Err.frodoAgg "Error deleting config entities" [error])
      , deleteCalls := [] }
  | Except.ok configEntityStubs =>
      let r := deleteLoop st (configEntityStubs.map (fun s => s._id)) [] [] []
      { outcome :=
          if r.2.1.isEmpty then Except.ok r.1
          else Except.error (Err.frodoAgg "Error deleting config entities" r.2.1)
      , deleteCalls := r.2.2 }

/-- `deleteConfigEntitiesByType`: list the entities of the type, delete each by
id. Unlike `deleteConfigEntities`, the outer catch re-throws the aggregate
unchanged when per-id errors were recorded, and wraps a failure of the listing
call itself as a fresh single-cause
`FrodoError("Error deleting config entities by type", error)`. -/
def deleteConfigEntitiesByType (st : Store) (type : String) : DeleteRun :=
  match readConfigEntitiesByType st type with
  | Except.error error =>
      { outcome :=
          Except.error (Err.frodo "Error deleting config entities by type" (some error))
      , deleteCalls := [] }
  | Except.ok configEntities =>
      let r := deleteLoop st (configEntities.map (fun c => c._id)) [] [] []
      { outcome :=
          if r.2.1.isEmpty then Except.ok r.1
          else Except.error (Err.frodoAgg "Error deleting config entities by type" r.2.1)
      , deleteCalls := r.2.2 }

/-- The per-id delete failure, if any, recorded for one id of a bulk delete. -/
def deleteFailure (st : Store) (entityId : String) : Option Err :=
  match st.deleteEntity entityId with
  | Except.ok _ => none
  | Except.error e => some e

/-- The deleted entity, if any, collected for one id of a bulk delete. -/
def deleteSuccess (st : Store) (entityId : String) : Option Entity :=
  match st.deleteEntity entityId with
  | Except.ok r => some r
  | Except.error _ => none

/-- A JavaScript call observed by a surrounding `try`: either it throws
synchronously, or it returns a value (for an `async` callee, the promise with
its eventual outcome). -/
inductive JsCall (α : Type) where
  | thrown (e : Err) : JsCall α
  | value (r : Except Err α) : JsCall α

/-- A `try { return call; } catch (error) { throw new FrodoError(msg, error); }`
block around a call whose result is returned without `await`: the catch
intercepts only synchronous throws; a returned promise passes through with its
eventual outcome untouched, rejected or not. -/
def tryReturnCatchWrap (msg : String) (call : JsCall α) : Except Err α :=
  match call with
  | JsCall.thrown e => Except.error (Err.frodo msg (some e))
  | JsCall.value r => r

/-- The api-layer `deleteConfigEntity` (`IdmConfigApi.ts`): an `async` function,
so invoking it never throws synchronously; it always returns the promise of the
underlying HTTP delete. -/
def apiDeleteConfigEntity (st : Store) (entityId : String) : JsCall Entity :=
  JsCall.value (st.deleteEntity entityId)

/-- The ops-layer `deleteConfigEntity` (`IdmConfigOps.ts`): returns the api
promise from inside a `try`/`catch` without awaiting it. -/
def deleteConfigEntity (st : Store) (entityId : String) : Except Err Entity :=
  tryReturnCatchWrap ("Error deleting config entity " ++ entityId)
    (apiDeleteConfigEntity st entityId)

/-- The remote store contents as seen through config entity ids: the state a
bulk import mutates. -/
def StoreState : Type := String → Option Entity

/-- The stateful PUT upsert of `IdmConfigApi.putConfigEntity`: the endpoint is
create-or-replace, so whether a call fails is a policy of the id and payload
alone (`putErr`), never of whether the id already exists; on success the entity
is stored under its id and echoed back. -/
def putConfigEntitySt (putErr : String → Entity → Option Err) (s : StoreState)
    (entityId : String) (entityData : Entity) : Except Err Entity × StoreState :=
  match putErr entityId entityData with
  | some e => (Except.error e, s)
  | none =>
      (Except.ok entityData,
       fun k => if k = entityId then some entityData else s k)

/-- Accumulator result of the stateful import loop. -/
structure ImportStResult where
  response : List Entity
  errors : List Err
  store : StoreState

/-- The sequential loop of `importConfigEntities`, threading the store state:
identical control flow to `importLoop`, with each successful upsert updating
the store contents. -/
def importLoopSt (putErr : String → Entity → Option Err) (state : State)
    (areScriptHooksValid : Entity → Bool) (options : ConfigEntityImportOptions) :
    List (String × Entity) → List Entity → List Err → StoreState → ImportStResult
  | [], response, errors, s => ⟨response, errors, s⟩
  | (entityId, entityData) :: rest, response, errors, s =>
    if options.validate = true ∧ areScriptHooksValid entityData = false then
      importLoopSt putErr state areScriptHooksValid options rest response
        (errors ++
          [Err.frodo ("Invalid script hook in the config object " ++ entityId) none])
        s
    else
      match putConfigEntitySt putErr s entityId entityData with
      | (Except.ok result, s2) =>
          importLoopSt putErr state areScriptHooksValid options rest
            (response ++ [result]) errors s2
      | (Except.error error0, s2) =>
          if importSuppressed state entityId
               (Err.frodo ("Error updating config entity " ++ entityId) (some error0)) then
            importLoopSt putErr state areScriptHooksValid options rest
              response errors s2
          else
            importLoopSt putErr state areScriptHooksValid options rest
              response
              (errors ++
                [Err.frodo ("Error updating config entity " ++ entityId) (some error0)])
              s2

/-- `importConfigEntities` over the stateful store model: returns the settled
promise together with the final store contents (writes persist even when the
call ultimately rejects with the aggregate error). -/
def importConfigEntitiesSt (putErr : String → Entity → Option Err) (state : State)
    (areScriptHooksValid : Entity → Bool) (options : ConfigEntityImportOptions)
    (importData : List (String × Entity)) (s : StoreState) :
    Except Err (List Entity) × StoreState :=
  let r := importLoopSt putErr state areScriptHooksValid options importData [] [] s
  ( if r.errors.isEmpty then Except.ok r.response
    else Except.error (Err.frodoAgg "Error importing config entities" r.errors)
  , r.store )

/-- The store-state transition contributed by one bundle entry: an entry whose
validation or upsert fails leaves the contents unchanged; a successful upsert
stores the payload under the id. -/
def stepState (putErr : String → Entity → Option Err)
    (areScriptHooksValid : Entity → Bool) (options : ConfigEntityImportOptions)
    (s : StoreState) (p : String × Entity) : StoreState :=
  if options.validate = true ∧ areScriptHooksValid p.2 = false then s
  else
    match putErr p.1 p.2 with
    | some _ => s
    | none => fun k => if k = p.1 then some p.2 else s k

/-- The id-indexed write set of a bundle import, last write wins: `some d` when
some entry of the list successfully writes `d` under the key and no later entry
overwrites it. -/
def writesOf (putErr : String → Entity → Option Err)
    (areScriptHooksValid : Entity → Bool) (options : ConfigEntityImportOptions) :
    List (String × Entity) → String → Option Entity
  | [] => fun _ => none
  | p :: rest => fun k =>
      match writesOf putErr areScriptHooksValid options rest k with
      | some v => some v
      | none =>
          if ¬(options.validate = true ∧ areScriptHooksValid p.2 = false) ∧
             (putErr p.1 p.2).isNone = true ∧ k = p.1
          then some p.2 else none

/-- A non-cloud ambient state for runs where the deployment type is
irrelevant. -/
def state0 : State := { deploymentType := "classic", meta := "meta0" }

/-- A cloud ambient state (`getDeploymentType()` equals the cloud key). -/
def stateCloud : State :=
  { deploymentType := CLOUD_DEPLOYMENT_TYPE_KEY, meta := "meta0" }

/-- A store on which every call succeeds; concrete runs below override single
operations to inject failures. -/
def baseStore : Store :=
  { listEntities := Except.ok []
  , listStubs := Except.ok []
  , listByType := fun _ => Except.ok []
  , getEntity := fun entityId => Except.ok { _id := entityId, body := 0 }
  , putEntity := fun _ entityData => Except.ok entityData
  , deleteEntity := fun entityId => Except.ok { _id := entityId, body := 0 } }

/-- A transport-level listing failure. -/
def errListing : Err :=
  Err.http { status := 500, errorReason := "Internal Server Error"
           , message := "boom", code := "ERR_BAD_RESPONSE" }

/-- A store whose bulk entity listing call rejects. -/
def storeListingFails : Store := { baseStore with listEntities := Except.error errListing }

/-- A store whose stub listing call rejects. -/
def storeStubsFail : Store := { baseStore with listStubs := Except.error errListing }

/-- A store whose by-type listing call rejects. -/
def storeByTypeFails : Store :=
  { baseStore with listByType := fun _ => Except.error errListing }

/-- A store listing one stub whose delete succeeds. -/
def storeOneStub : Store :=
  { baseStore with
    listStubs := Except.ok [{ _id := "managed", pid := "managed", factoryPid := none }] }

/-- A store listing one entity of a type whose delete fails. -/
def storeOneOfTypeDeleteFails : Store :=
  { baseStore with
    listByType := fun _ => Except.ok [{ _id := "script/foo", body := 3 }]
  , deleteEntity := fun _ => Except.error errListing }

/-- A store listing one entity whose per-entity refetch rejects with an
unclassified 500. -/
def storeRefetchFails : Store :=
  { baseStore with
    listEntities := Except.ok [{ _id := "entity0", body := 0 }]
  , getEntity := fun _ => Except.error errListing }

/-- A 404 "Not Found" store error. -/
def err404NotFound : Err :=
  Err.http { status := 404, errorReason := "Not Found"
           , message := "Resource not found", code := "ERR_BAD_REQUEST" }

/-- A store listing the allow-listed id `script` and one ordinary entity; the
refetch of `script` rejects with 404 "Not Found". -/
def storeUnavailableScript : Store :=
  { baseStore with
    listEntities :=
      Except.ok [{ _id := "script", body := 0 }, { _id := "managed", body := 1 }]
  , getEntity := fun entityId =>
      if entityId = "script" then Except.error err404NotFound
      else Except.ok { _id := entityId, body := 1 } }

/-- A 404 whose message is the legacy file-install message. -/
def err404FileInstall : Err :=
  Err.http { status := 404, errorReason := "Not Found"
           , message := "No configuration exists for id org.apache.felix.fileinstall/openidm"
           , code := "ERR_BAD_REQUEST" }

/-- A store listing the id `weird`, not on the allow list, whose refetch
rejects with a 404 carrying the legacy file-install message. -/
def storeWeirdFileInstall : Store :=
  { baseStore with
    listEntities := Except.ok [{ _id := "weird", body := 7 }]
  , getEntity := fun _ => Except.error err404FileInstall }

/-- A store listing the non-allow-listed id `custom/endpoint` and one ordinary
entity; the refetch of `custom/endpoint` rejects with an ordinary 404. -/
def storeCustom404 : Store :=
  { baseStore with
    listEntities :=
      Except.ok [{ _id := "custom/endpoint", body := 0 }, { _id := "managed", body := 1 }]
  , getEntity := fun entityId =>
      if entityId = "custom/endpoint" then Except.error err404NotFound
      else Except.ok { _id := entityId, body := 1 } }

/-- A 403 bad-request store error, as the cloud offering returns for writes to
protected default-realm templates. -/
def err403Protected : Err :=
  Err.http { status := 403, errorReason := "Forbidden"
           , message := "denied", code := "ERR_BAD_REQUEST" }

/-- A store on which upserting `emailTemplate/frOnboarding` rejects with the
protected 403 and every other upsert succeeds. -/
def storeProtectedPut : Store :=
  { baseStore with
    putEntity := fun entityId entityData =>
      if entityId = "emailTemplate/frOnboarding" then Except.error err403Protected
      else Except.ok entityData }

/-- A two-entry import bundle whose first entry is the protected template. -/
def bundleProtected : List (String × Entity) :=
  [ ("emailTemplate/frOnboarding", { _id := "emailTemplate/frOnboarding", body := 0 })
  , ("managed", { _id := "managed", body := 1 }) ]

/-- A two-entry import bundle whose first entry will fail hook validation
(body 0) under `hookValidator`. -/
def bundleWithInvalid : List (String × Entity) :=
  [ ("bad", { _id := "bad", body := 0 })
  , ("good", { _id := "good", body := 1 }) ]

/-- A concrete script-hook validator: entities with body 0 are invalid. -/
def hookValidator (entityData : Entity) : Bool := entityData.body != 0

/-- A store whose single-entity delete call rejects. -/
def storeDeleteFails : Store :=
  { baseStore with deleteEntity := fun _ => Except.error errListing }

/-- The failure, if any, recorded for one bundle entry in the stateful import
model; identical classification to `entryRecordedFailure`, phrased over the
put failure policy. -/
def entryRecordedFailureSt (putErr : String → Entity → Option Err)
    (state : State) (areScriptHooksValid : Entity → Bool)
    (options : ConfigEntityImportOptions) (p : String × Entity) : Option Err :=
  if options.validate = true ∧ areScriptHooksValid p.2 = false then
    some (Err.frodo ("Invalid script hook in the config object " ++ p.1) none)
  else
    match putErr p.1 p.2 with
    | none => none
    | some e0 =>
        if importSuppressed state p.1
             (Err.frodo ("Error updating config entity " ++ p.1) (some e0)) then
          none
        else some (Err.frodo ("Error updating config entity " ++ p.1) (some e0))

/-- The upserted entity, if any, appended to the response for one bundle entry
in the stateful import model. -/
def entryAppliedResultSt (putErr : String → Entity → Option Err)
    (areScriptHooksValid : Entity → Bool)
    (options : ConfigEntityImportOptions) (p : String × Entity) : Option Entity :=
  if options.validate = true ∧ areScriptHooksValid p.2 = false then none
  else
    match putErr p.1 p.2 with
    | none => some p.2
    | some _ => none

/-- Store contents overridden by a write set: keys the write set covers take
its value, all others keep the underlying contents. -/
def overrideState (s : StoreState) (w : String → Option Entity) : StoreState :=
  fun k =>
    match w k with
    | some v => some v
    | none => s k


theorem importLoop_spec (st : Store) (state : State) (v : Entity → Bool)
    (options : ConfigEntityImportOptions) (l : List (String × Entity)) :
    ∀ (response : List Entity) (errors : List Err) (putCalls : List String),
    importLoop st state v options l response errors putCalls =
      ( response ++ l.filterMap (entryAppliedResult st state v options)
      , errors ++ l.filterMap (entryRecordedFailure st state v options)
      , putCalls ++ l.filterMap (entryPutAttempt v options) ) := by
  induction l with
  | nil => intro response errors putCalls; simp [importLoop]
  | cons p rest ih =>
    obtain ⟨entityId, entityData⟩ := p
    intro response errors putCalls
    by_cases hval : options.validate = true ∧ v entityData = false
    · simp only [importLoop, if_pos hval, ih, List.filterMap_cons,
        entryAppliedResult, entryRecordedFailure, entryPutAttempt]
      simp [hval]
    · cases hput : updateConfigEntity st entityId entityData with
      | ok result =>
        simp only [importLoop, if_neg hval, hput, ih, List.filterMap_cons,
          entryAppliedResult, entryRecordedFailure, entryPutAttempt]
        simp [hval, hput]
      | error error =>
        by_cases hsup : importSuppressed state entityId error
        · simp only [importLoop, if_neg hval, hput, if_pos hsup, ih,
            List.filterMap_cons, entryAppliedResult, entryRecordedFailure,
            entryPutAttempt]
          simp [hval, hput, hsup]
        · simp only [importLoop, if_neg hval, hput, if_neg hsup, ih,
            List.filterMap_cons, entryAppliedResult, entryRecordedFailure,
            entryPutAttempt]
          simp [hval, hput, hsup]

/-- Claim C2: `importConfigEntities` attempts every id in the bundle (the trace
of store upserts is the pointwise, per-entry attempt list — no short-circuit on
an early failure); if at least one id recorded a failure, the call rejects with
the aggregate error wrapping exactly the per-entry recorded failures in order;
if zero ids failed, it returns exactly the per-entry list of successfully
upserted entities. -/
theorem importConfigEntities_pointwise (st : Store) (state : State)
    (areScriptHooksValid : Entity → Bool) (options : ConfigEntityImportOptions)
    (importData : List (String × Entity)) :
    (importConfigEntities st state areScriptHooksValid options importData).outcome =
      (if (importData.filterMap
            (entryRecordedFailure st state areScriptHooksValid options)).isEmpty
       then Except.ok
              (importData.filterMap
                (entryAppliedResult st state areScriptHooksValid options))
       else Except.error
              (Err.frodoAgg "Error importing config entities"
                (importData.filterMap
                  (entryRecordedFailure st state areScriptHooksValid options))))
    ∧ (importConfigEntities st state areScriptHooksValid options importData).putCalls =
        importData.filterMap (entryPutAttempt areScriptHooksValid options) := by
  unfold importConfigEntities
  rw [importLoop_spec]
  simp

theorem entryRecordedFailure_protected_none (st : Store) (state : State)
    (v : Entity → Bool) (options : ConfigEntityImportOptions)
    (entityId : String) (entityData : Entity) (e : Err)
    (hdep : state.deploymentType = CLOUD_DEPLOYMENT_TYPE_KEY)
    (hprot : entityId ∈ AIC_PROTECTED_ENTITIES)
    (hput : st.putEntity entityId entityData = Except.error e)
    (hstatus : e.httpStatus = some 403)
    (hcode : e.httpCode = some "ERR_BAD_REQUEST")
    (hv : options.validate = false ∨ v entityData = true) :
    entryRecordedFailure st state v options (entityId, entityData) = none := by
  have hval : ¬(options.validate = true ∧ v entityData = false) := by
    rcases hv with hv | hv <;> simp [hv]
  have hupd : updateConfigEntity st entityId entityData =
      Except.error
        (Err.frodo ("Error updating config entity " ++ entityId) (some e)) := by
    simp [updateConfigEntity, hput]
  have hsup : importSuppressed state entityId
      (Err.frodo ("Error updating config entity " ++ entityId) (some e)) :=
    ⟨hdep, hprot, by simp [Err.httpStatus, hstatus], by simp [Err.httpCode, hcode]⟩
  simp [entryRecordedFailure, hval, hupd, hsup]

/-- Claim C7: against a cloud deployment, an id in the protected-entity set
whose upsert fails with a 403 bad-request-class error is suppressed (it records
no failure and contributes nothing to the response); if every other entry
records no failure either, the call succeeds and returns all other upserted
entities as applied. -/
theorem importConfigEntities_protected (st : Store) (state : State)
    (areScriptHooksValid : Entity → Bool) (options : ConfigEntityImportOptions)
    (importData : List (String × Entity))
    (entityId : String) (entityData : Entity) (e : Err)
    (hdep : state.deploymentType = CLOUD_DEPLOYMENT_TYPE_KEY)
    (hprot : entityId ∈ AIC_PROTECTED_ENTITIES)
    (hput : st.putEntity entityId entityData = Except.error e)
    (hstatus : e.httpStatus = some 403)
    (hcode : e.httpCode = some "ERR_BAD_REQUEST")
    (hv : options.validate = false ∨ areScriptHooksValid entityData = true)
    (hothers : ∀ p ∈ importData,
        entryRecordedFailure st state areScriptHooksValid options p = none ∨
        p = (entityId, entityData)) :
    (importConfigEntities st state areScriptHooksValid options importData).outcome =
      Except.ok
        (importData.filterMap
          (entryAppliedResult st state areScriptHooksValid options))
    ∧ entryAppliedResult st state areScriptHooksValid options
        (entityId, entityData) = none := by
  have hnone :
      importData.filterMap
        (entryRecordedFailure st state areScriptHooksValid options) = [] := by
    rw [List.filterMap_eq_nil_iff]
    intro p hp
    rcases hothers p hp with h | h
    · exact h
    · subst h
      exact entryRecordedFailure_protected_none st state areScriptHooksValid
        options entityId entityData e hdep hprot hput hstatus hcode hv
  constructor
  · unfold importConfigEntities
    rw [importLoop_spec]
    simp [hnone]
  · have hval : ¬(options.validate = true ∧ areScriptHooksValid entityData = false) := by
      rcases hv with hv | hv <;> simp [hv]
    simp [entryAppliedResult, hval, updateConfigEntity, hput]

/-- Witness for claim C7: a concrete cloud run in which the only upsert failure
is the protected template `emailTemplate/frOnboarding` rejecting with 403
bad-request; the call succeeds and returns the other entity as applied. -/
theorem importConfigEntities_protected_witness :
    stateCloud.deploymentType = CLOUD_DEPLOYMENT_TYPE_KEY
    ∧ "emailTemplate/frOnboarding" ∈ AIC_PROTECTED_ENTITIES
    ∧ storeProtectedPut.putEntity "emailTemplate/frOnboarding"
        { _id := "emailTemplate/frOnboarding", body := 0 } =
        Except.error err403Protected
    ∧ (importConfigEntities storeProtectedPut stateCloud hookValidator
        { validate := false } bundleProtected).outcome =
        Except.ok
          (bundleProtected.filterMap
            (entryAppliedResult storeProtectedPut stateCloud hookValidator
              { validate := false }))
    ∧ entryAppliedResult storeProtectedPut stateCloud hookValidator
        { validate := false }
        ("emailTemplate/frOnboarding",
          { _id := "emailTemplate/frOnboarding", body := 0 }) = none := by
  have h := importConfigEntities_protected storeProtectedPut stateCloud
    hookValidator { validate := false } bundleProtected
    "emailTemplate/frOnboarding" { _id := "emailTemplate/frOnboarding", body := 0 }
    err403Protected rfl (by decide) rfl rfl rfl (Or.inl rfl)
    (by
      intro p hp
      simp only [bundleProtected, List.mem_cons, List.mem_singleton] at hp
      rcases hp with hp | hp | hp
      · exact Or.inr hp
      · exact Or.inl (by rw [hp]; rfl)
      · cases hp)
  exact ⟨rfl, by decide, rfl, h.1, h.2⟩

/-- Claim C8: with `validate: true`, an entry whose script hooks fail
validation causes no store upsert call for that id (the id is absent from the
upsert trace), and the corresponding validation failure is among the errors
wrapped in the final aggregate rejection. -/
theorem importConfigEntities_validation (st : Store) (state : State)
    (areScriptHooksValid : Entity → Bool) (options : ConfigEntityImportOptions)
    (importData : List (String × Entity)) (entityId : String) (entityData : Entity)
    (hval : options.validate = true)
    (hmem : (entityId, entityData) ∈ importData)
    (hinv : areScriptHooksValid entityData = false)
    (hnodup : (importData.map Prod.fst).Nodup) :
    entityId ∉
      (importConfigEntities st state areScriptHooksValid options importData).putCalls
    ∧ ∃ errs,
        (importConfigEntities st state areScriptHooksValid options
          importData).outcome =
          Except.error (Err.frodoAgg "Error importing config entities" errs)
        ∧ Err.frodo ("Invalid script hook in the config object " ++ entityId) none
            ∈ errs := by
  have hfail :
      entryRecordedFailure st state areScriptHooksValid options
        (entityId, entityData) =
        some (Err.frodo ("Invalid script hook in the config object " ++ entityId)
          none) := by
    simp [entryRecordedFailure, hval, hinv]
  have hmemerr :
      Err.frodo ("Invalid script hook in the config object " ++ entityId) none ∈
        importData.filterMap
          (entryRecordedFailure st state areScriptHooksValid options) :=
    List.mem_filterMap.mpr ⟨(entityId, entityData), hmem, hfail⟩
  have hne :
      (importData.filterMap
        (entryRecordedFailure st state areScriptHooksValid options)).isEmpty =
        false := by
    have hnil := List.ne_nil_of_mem hmemerr
    cases h : (importData.filterMap
        (entryRecordedFailure st state areScriptHooksValid options)).isEmpty
    · rfl
    · exact absurd (List.isEmpty_iff.mp h) hnil
  constructor
  · intro habs
    have hput :
        (importConfigEntities st state areScriptHooksValid options
          importData).putCalls =
          importData.filterMap (entryPutAttempt areScriptHooksValid options) := by
      unfold importConfigEntities
      rw [importLoop_spec]
      simp
    rw [hput] at habs
    rcases List.mem_filterMap.mp habs with ⟨p, hp, hatt⟩
    have hfst : p.1 = entityId := by
      by_cases hc : options.validate = true ∧ areScriptHooksValid p.2 = false
      · simp [entryPutAttempt, hc] at hatt
      · simp [entryPutAttempt, hc] at hatt
        exact hatt
    have heq : p = (entityId, entityData) := by
      apply List.inj_on_of_nodup_map hnodup hp hmem
      simp [hfst]
    rw [heq] at hatt
    simp [entryPutAttempt, hval, hinv] at hatt
  · refine ⟨importData.filterMap
      (entryRecordedFailure st state areScriptHooksValid options), ?_, hmemerr⟩
    unfold importConfigEntities
    rw [importLoop_spec]
    simp [hne]

/-- Witness for claim C8: a concrete run with `validate: true` on a bundle
whose entry `bad` fails hook validation; no upsert is attempted for `bad` and
its validation failure is wrapped in the aggregate rejection. -/
theorem importConfigEntities_validation_witness :
    ({ validate := true } : ConfigEntityImportOptions).validate = true
    ∧ ("bad", ({ _id := "bad", body := 0 } : Entity)) ∈ bundleWithInvalid
    ∧ hookValidator { _id := "bad", body := 0 } = false
    ∧ ("bad" ∉
        (importConfigEntities baseStore state0 hookValidator { validate := true }
          bundleWithInvalid).putCalls
      ∧ ∃ errs,
          (importConfigEntities baseStore state0 hookValidator { validate := true }
            bundleWithInvalid).outcome =
            Except.error (Err.frodoAgg "Error importing config entities" errs)
          ∧ Err.frodo "Invalid script hook in the config object bad" none ∈ errs) := by
  refine ⟨rfl, by decide, rfl, ?_⟩
  exact importConfigEntities_validation baseStore state0 hookValidator
    { validate := true } bundleWithInvalid "bad" { _id := "bad", body := 0 }
    rfl (by decide) rfl (by decide)

theorem deleteLoop_spec (st : Store) (ids : List String) :
    ∀ (result : List Entity) (errors : List Err) (calls : List String),
    deleteLoop st ids result errors calls =
      ( result ++ ids.filterMap (deleteSuccess st)
      , errors ++ ids.filterMap (deleteFailure st)
      , calls ++ ids ) := by
  induction ids with
  | nil => intro result errors calls; simp [deleteLoop]
  | cons entityId rest ih =>
    intro result errors calls
    cases hdel : st.deleteEntity entityId with
    | ok r =>
      simp only [deleteLoop, hdel, ih, List.filterMap_cons, deleteSuccess,
        deleteFailure]
      simp [hdel]
    | error e =>
      simp only [deleteLoop, hdel, ih, List.filterMap_cons, deleteSuccess,
        deleteFailure]
      simp [hdel]

/-- Counterexample for claim C3: when the stub listing call itself fails,
`deleteConfigEntities` does not propagate the failure as a single wrapped
error with no per-id aggregation — it appends the wrapped listing error to the
same error list as per-id failures and rejects with the aggregate
(error-list) form of `FrodoError`. -/
theorem deleteConfigEntities_listing_aggregated :
    (deleteConfigEntities storeStubsFail).outcome =
      Except.error
        (Err.frodoAgg "Error deleting config entities"
          [Err.frodo "Error reading config entity stubs" (some errListing)])
    ∧ Err.isAggregate
        (Err.frodoAgg "Error deleting config entities"
          [Err.frodo "Error reading config entity stubs" (some errListing)]) = true
    ∧ (deleteConfigEntitiesByType storeByTypeFails "script").outcome =
        Except.error
          (Err.frodo "Error deleting config entities by type"
            (some (Err.frodo "Error reading config entities by type"
              (some errListing))))
    ∧ Err.isAggregate
        (Err.frodo "Error deleting config entities by type"
          (some (Err.frodo "Error reading config entities by type"
            (some errListing)))) = false := by
  exact ⟨rfl, rfl, rfl, rfl⟩

/-- Claim C3 (amended): both bulk delete operations attempt every id, append
per-id delete failures to an error list without stopping, reject with one
aggregate error carrying the full list only after attempting every id, and
return the deleted entities when nothing failed. They differ on a failure of
the listing call itself: `deleteConfigEntitiesByType` propagates it immediately
as a single wrapped error (no per-id aggregation), while `deleteConfigEntities`
appends the wrapped listing failure to the same error list and rejects with the
same aggregate form (a one-element error list). -/
theorem deleteOps_listing_vs_perid (stA stB stC stD : Store) (t u : String)
    (e1 e2 : Err) (stubs : List IdmConfigStub) (ents : List Entity)
    (hA : stA.listStubs = Except.error e1)
    (hB : stB.listByType t = Except.error e2)
    (hC : stC.listStubs = Except.ok stubs)
    (hD : stD.listByType u = Except.ok ents) :
    ((deleteConfigEntities stA).outcome =
        Except.error
          (Err.frodoAgg "Error deleting config entities"
            [Err.frodo "Error reading config entity stubs" (some e1)])
      ∧ (deleteConfigEntities stA).deleteCalls = [])
    ∧ ((deleteConfigEntitiesByType stB t).outcome =
        Except.error
          (Err.frodo "Error deleting config entities by type"
            (some (Err.frodo "Error reading config entities by type" (some e2))))
      ∧ (deleteConfigEntitiesByType stB t).deleteCalls = [])
    ∧ ((deleteConfigEntities stC).deleteCalls = stubs.map (fun s => s._id)
      ∧ (deleteConfigEntities stC).outcome =
          (if ((stubs.map (fun s => s._id)).filterMap (deleteFailure stC)).isEmpty
           then Except.ok
                  ((stubs.map (fun s => s._id)).filterMap (deleteSuccess stC))
           else Except.error
                  (Err.frodoAgg "Error deleting config entities"
                    ((stubs.map (fun s => s._id)).filterMap (deleteFailure stC)))))
    ∧ ((deleteConfigEntitiesByType stD u).deleteCalls = ents.map (fun c => c._id)
      ∧ (deleteConfigEntitiesByType stD u).outcome =
          (if ((ents.map (fun c => c._id)).filterMap (deleteFailure stD)).isEmpty
           then Except.ok
                  ((ents.map (fun c => c._id)).filterMap (deleteSuccess stD))
           else Except.error
                  (Err.frodoAgg "Error deleting config entities by type"
                    ((ents.map (fun c => c._id)).filterMap (deleteFailure stD))))) := by
  refine ⟨?_, ?_, ?_, ?_⟩
  · unfold deleteConfigEntities readConfigEntityStubs
    rw [hA]
    exact ⟨rfl, rfl⟩
  · unfold deleteConfigEntitiesByType readConfigEntitiesByType
    rw [hB]
    exact ⟨rfl, rfl⟩
  · unfold deleteConfigEntities readConfigEntityStubs
    rw [hC]
    simp only []
    rw [deleteLoop_spec]
    constructor
    · simp
    · simp
  · unfold deleteConfigEntitiesByType readConfigEntitiesByType
    rw [hD]
    simp only []
    rw [deleteLoop_spec]
    constructor
    · simp
    · simp

/-- Witness for claim C3: concrete stores exercising all four hypotheses of the
amended theorem — a failing stub listing, a failing by-type listing, a
successful stub listing, and a successful by-type listing whose one delete
fails. -/
theorem deleteOps_listing_vs_perid_witness :
    storeStubsFail.listStubs = Except.error errListing
    ∧ storeByTypeFails.listByType "script" = Except.error errListing
    ∧ storeOneStub.listStubs =
        Except.ok [{ _id := "managed", pid := "managed", factoryPid := none }]
    ∧ storeOneOfTypeDeleteFails.listByType "script" =
        Except.ok [{ _id := "script/foo", body := 3 }]
    ∧ (((deleteConfigEntities storeStubsFail).outcome =
          Except.error
            (Err.frodoAgg "Error deleting config entities"
              [Err.frodo "Error reading config entity stubs" (some errListing)])
        ∧ (deleteConfigEntities storeStubsFail).deleteCalls = [])
      ∧ ((deleteConfigEntitiesByType storeByTypeFails "script").outcome =
          Except.error
            (Err.frodo "Error deleting config entities by type"
              (some (Err.frodo "Error reading config entities by type"
                (some errListing))))
        ∧ (deleteConfigEntitiesByType storeByTypeFails "script").deleteCalls = [])
      ∧ ((deleteConfigEntities storeOneStub).deleteCalls =
          ([{ _id := "managed", pid := "managed", factoryPid := none }] :
            List IdmConfigStub).map (fun s => s._id)
        ∧ (deleteConfigEntities storeOneStub).outcome =
            (if ((([{ _id := "managed", pid := "managed", factoryPid := none }] :
                    List IdmConfigStub).map (fun s => s._id)).filterMap
                  (deleteFailure storeOneStub)).isEmpty
             then Except.ok
                    (((([{ _id := "managed", pid := "managed", factoryPid := none }] :
                        List IdmConfigStub).map (fun s => s._id))).filterMap
                      (deleteSuccess storeOneStub))
             else Except.error
                    (Err.frodoAgg "Error deleting config entities"
                      ((([{ _id := "managed", pid := "managed", factoryPid := none }] :
                          List IdmConfigStub).map (fun s => s._id)).filterMap
                        (deleteFailure storeOneStub)))))
      ∧ ((deleteConfigEntitiesByType storeOneOfTypeDeleteFails "script").deleteCalls =
          ([{ _id := "script/foo", body := 3 }] : List Entity).map (fun c => c._id)
        ∧ (deleteConfigEntitiesByType storeOneOfTypeDeleteFails "script").outcome =
            (if ((([{ _id := "script/foo", body := 3 }] : List Entity).map
                    (fun c => c._id)).filterMap
                  (deleteFailure storeOneOfTypeDeleteFails)).isEmpty
             then Except.ok
                    ((([{ _id := "script/foo", body := 3 }] : List Entity).map
                      (fun c => c._id)).filterMap
                      (deleteSuccess storeOneOfTypeDeleteFails))
             else Except.error
                    (Err.frodoAgg "Error deleting config entities by type"
                      ((([{ _id := "script/foo", body := 3 }] : List Entity).map
                        (fun c => c._id)).filterMap
                        (deleteFailure storeOneOfTypeDeleteFails)))))) :=
  ⟨rfl, rfl, rfl, rfl,
    deleteOps_listing_vs_perid storeStubsFail storeByTypeFails storeOneStub
      storeOneOfTypeDeleteFails "script" "script" errListing errListing
      [{ _id := "managed", pid := "managed", factoryPid := none }]
      [{ _id := "script/foo", body := 3 }] rfl rfl rfl rfl⟩


theorem insertResults_idm_of_not_mem (rs : List (Option Entity)) :
    ∀ (acc : ConfigEntityExportInterface) (k : String),
    (∀ x : Entity, some x ∈ rs → x._id ≠ k) →
    (insertResults acc rs).idm k = acc.idm k := by
  induction rs with
  | nil => intro acc k _; rfl
  | cons o rest ih =>
    intro acc k h
    cases o with
    | none =>
      exact ih acc k (fun x hx => h x (List.mem_cons_of_mem _ hx))
    | some x =>
      have hx : x._id ≠ k := h x (List.mem_cons_self _ _)
      rw [insertResults, ih _ k (fun y hy => h y (List.mem_cons_of_mem _ hy))]
      show (if k = x._id then some x else acc.idm k) = acc.idm k
      exact if_neg (fun hk => hx hk.symm)

theorem insertResults_idm_of_mem (rs : List (Option Entity)) :
    ∀ (acc : ConfigEntityExportInterface) (k : String) (r : Entity),
    r._id = k → some r ∈ rs →
    (∀ x : Entity, some x ∈ rs → x._id = k → x = r) →
    (insertResults acc rs).idm k = some r := by
  induction rs with
  | nil => intro acc k r _ hmem _; cases hmem
  | cons o rest ih =>
    intro acc k r hk hmem huniq
    by_cases hrest : some r ∈ rest
    · cases o with
      | none =>
        exact ih acc k r hk hrest
          (fun x hx hxk => huniq x (List.mem_cons_of_mem _ hx) hxk)
      | some x =>
        rw [insertResults]
        exact ih _ k r hk hrest
          (fun y hy hyk => huniq y (List.mem_cons_of_mem _ hy) hyk)
    · have hhead : o = some r := by
        rcases List.mem_cons.mp hmem with h | h
        · exact h.symm
        · exact absurd h hrest
      subst hhead
      have hnone : ∀ x : Entity, some x ∈ rest → x._id ≠ k := by
        intro x hx hxk
        have hxr := huniq x (List.mem_cons_of_mem _ hx) hxk
        rw [hxr] at hx
        exact hrest hx
      rw [insertResults, insertResults_idm_of_not_mem rest _ k hnone]
      show (if k = r._id then some r else acc.idm k) = some r
      rw [if_pos hk.symm]

theorem exportFetchOne_ok (st : Store) (entityId : String) (result : Entity)
    (h : st.getEntity entityId = Except.ok result) :
    exportFetchOne st entityId = (some result, []) := by
  unfold exportFetchOne
  rw [show readConfigEntity st entityId = Except.ok result by
    simp [readConfigEntity, h]]

theorem exportFetchOne_error (st : Store) (entityId : String) (e : Err)
    (h : st.getEntity entityId = Except.error e) :
    exportFetchOne st entityId =
      ( none
      , if ¬(e.httpStatus = some 403 ∧
              e.httpMessage =
                some "This operation is not available in ForgeRock Identity Cloud.") ∧
           ¬(entityId ∈ IDM_UNAVAILABLE_ENTITIES ∧
              e.httpStatus = some 404 ∧
              e.httpErrorReason = some "Not Found") ∧
           ¬(e.httpStatus = some 404 ∧
              e.httpMessage =
                some "No configuration exists for id org.apache.felix.fileinstall/openidm")
        then [entityId]
        else [] ) := by
  unfold exportFetchOne
  rw [show readConfigEntity st entityId =
      Except.error
        (Err.frodo ("Error reading config entity " ++ entityId) (some e)) by
    simp [readConfigEntity, h]]
  rfl

theorem exportConfigEntities_ok (st : Store) (state : State) (l : List Entity)
    (hl : st.listEntities = Except.ok l) :
    exportConfigEntities st state =
      { outcome :=
          Except.ok (some (insertResults (createConfigEntityExportTemplate state)
            (l.map (fun c => (exportFetchOne st c._id).1))))
      , printed := []
      , escalatedIds := (l.map (fun c => (exportFetchOne st c._id).2)).flatten
      , startTotal := some l.length
      , reportedExportCount := some l.length } := by
  unfold exportConfigEntities
  rw [show readConfigEntities st = Except.ok l by simp [readConfigEntities, hl]]
  simp [List.map_map]
  exact ⟨rfl, rfl⟩

theorem exportConfigEntities_listing_error (st : Store) (state : State) (e : Err)
    (hl : st.listEntities = Except.error e) :
    exportConfigEntities st state =
      { outcome := Except.ok none
      , printed := [Err.frodo "Error reading config entities" (some e)]
      , escalatedIds := []
      , startTotal := none
      , reportedExportCount := none } := by
  unfold exportConfigEntities
  rw [show readConfigEntities st =
      Except.error (Err.frodo "Error reading config entities" (some e)) by
    simp [readConfigEntities, hl]]

/-- Counterexample for claim C1: with a store whose listing call rejects, the
listing failure is not reported to the caller as an error — the call resolves
(with no bundle) instead of rejecting with the wrapped listing error. -/
theorem exportConfigEntities_no_rejection_counterexample :
    storeListingFails.listEntities = Except.error errListing
    ∧ (exportConfigEntities storeListingFails state0).outcome = Except.ok none
    ∧ (exportConfigEntities storeListingFails state0).outcome ≠
        Except.error (Err.frodo "Error reading config entities" (some errListing)) := by
  refine ⟨rfl, rfl, ?_⟩
  intro hcontra
  rw [show (exportConfigEntities storeListingFails state0).outcome =
    Except.ok none from rfl] at hcontra
  exact Except.noConfusion hcontra

/-- Claim C1 (amended): if the initial listing call fails, the export aborts
without producing a bundle — the wrapped listing error is printed via
`printError` and the call resolves with `undefined` rather than rejecting; no
escalation or summary is emitted. Moreover the operation never rejects for any
store, so per-entity fetch failures in particular never cause it to raise. -/
theorem exportConfigEntities_listing_swallowed (st : Store) (state : State)
    (e : Err) (hl : st.listEntities = Except.error e) :
    (exportConfigEntities st state).outcome = Except.ok none
    ∧ (exportConfigEntities st state).printed =
        [Err.frodo "Error reading config entities" (some e)]
    ∧ (exportConfigEntities st state).escalatedIds = []
    ∧ (exportConfigEntities st state).reportedExportCount = none
    ∧ ∀ st2 : Store, ∃ b, (exportConfigEntities st2 state).outcome = Except.ok b := by
  rw [exportConfigEntities_listing_error st state e hl]
  refine ⟨rfl, rfl, rfl, rfl, ?_⟩
  intro st2
  cases h2 : st2.listEntities with
  | ok l =>
    exact ⟨_, by rw [exportConfigEntities_ok st2 state l h2]⟩
  | error e2 =>
    exact ⟨none, by rw [exportConfigEntities_listing_error st2 state e2 h2]⟩

/-- Witness for claim C1: the amended theorem applied to the concrete store
whose bulk listing rejects. -/
theorem exportConfigEntities_listing_swallowed_witness :
    storeListingFails.listEntities = Except.error errListing
    ∧ ((exportConfigEntities storeListingFails state0).outcome = Except.ok none
      ∧ (exportConfigEntities storeListingFails state0).printed =
          [Err.frodo "Error reading config entities" (some errListing)]
      ∧ (exportConfigEntities storeListingFails state0).escalatedIds = []
      ∧ (exportConfigEntities storeListingFails state0).reportedExportCount = none
      ∧ ∀ st2 : Store, ∃ b,
          (exportConfigEntities st2 state0).outcome = Except.ok b) :=
  ⟨rfl, exportConfigEntities_listing_swallowed storeListingFails state0
    errListing rfl⟩

/-- Counterexample for claim C4: a working set of one entity whose refetch
fails. The terminal summary reports 1 (`Exported 1 config entities.`) although
zero entities were successfully exported. -/
theorem exportConfigEntities_summary_counterexample :
    storeRefetchFails.listEntities =
      Except.ok [{ _id := "entity0", body := 0 }]
    ∧ (exportConfigEntities storeRefetchFails state0).reportedExportCount = some 1
    ∧ exportSuccesses storeRefetchFails [{ _id := "entity0", body := 0 }] = []
    ∧ (exportConfigEntities storeRefetchFails state0).reportedExportCount ≠
        some (exportSuccesses storeRefetchFails
          [{ _id := "entity0", body := 0 }]).length := by
  refine ⟨rfl, ?_, ?_, ?_⟩
  · rw [exportConfigEntities_ok storeRefetchFails state0
      [{ _id := "entity0", body := 0 }] rfl]
    rfl
  · rfl
  · rw [exportConfigEntities_ok storeRefetchFails state0
      [{ _id := "entity0", body := 0 }] rfl]
    intro hcontra
    rw [show (exportSuccesses storeRefetchFails
      [{ _id := "entity0", body := 0 }]).length = 0 from rfl] at hcontra
    exact Nat.noConfusion (Option.some.inj hcontra)

/-- Claim C4 (amended): for every working set, the terminal progress summary of
`exportConfigEntities` reports the working-set size (the number of entities
attempted), which equals the progress-indicator start total; it is not the
count of successfully exported entities when some per-entity fetches fail. -/
theorem exportConfigEntities_summary_total (st : Store) (state : State)
    (l : List Entity) (hl : st.listEntities = Except.ok l) :
    (exportConfigEntities st state).reportedExportCount = some l.length
    ∧ (exportConfigEntities st state).startTotal = some l.length := by
  rw [exportConfigEntities_ok st state l hl]
  exact ⟨rfl, rfl⟩

/-- Witness for claim C4: the amended theorem applied to the concrete store
listing one entity whose refetch fails; the summary reports 1. -/
theorem exportConfigEntities_summary_total_witness :
    storeRefetchFails.listEntities = Except.ok [{ _id := "entity0", body := 0 }]
    ∧ ((exportConfigEntities storeRefetchFails state0).reportedExportCount =
        some ([({ _id := "entity0", body := 0 } : Entity)]).length
      ∧ (exportConfigEntities storeRefetchFails state0).startTotal =
          some ([({ _id := "entity0", body := 0 } : Entity)]).length) :=
  ⟨rfl, exportConfigEntities_summary_total storeRefetchFails state0
    [{ _id := "entity0", body := 0 }] rfl⟩

/-- Claim C5: for an id in the known-unavailable set whose per-entity refetch
fails with HTTP 404 and error reason "Not Found", `exportConfigEntities` omits
the id from the resulting bundle entity map, resolves successfully with a
bundle (it does not raise), and emits no error-level escalation for that id.
The store is assumed id-consistent: a successful fetch of id `j` returns an
entity whose `_id` is `j`. -/
theorem exportConfigEntities_unavailable_suppressed (st : Store) (state : State)
    (l : List Entity) (entityId : String) (e : Err)
    (hl : st.listEntities = Except.ok l)
    (hmem : entityId ∈ IDM_UNAVAILABLE_ENTITIES)
    (hget : st.getEntity entityId = Except.error e)
    (hstatus : e.httpStatus = some 404)
    (hreason : e.httpErrorReason = some "Not Found")
    (hcons : ∀ (j : String) (r : Entity),
      st.getEntity j = Except.ok r → r._id = j) :
    ∃ b, (exportConfigEntities st state).outcome = Except.ok (some b)
      ∧ b.idm entityId = none
      ∧ entityId ∉ (exportConfigEntities st state).escalatedIds := by
  rw [exportConfigEntities_ok st state l hl]
  refine ⟨_, rfl, ?_, ?_⟩
  · apply insertResults_idm_of_not_mem
    intro x hx habs
    rcases List.mem_map.mp hx with ⟨c, -, hco⟩
    cases hgc : st.getEntity c._id with
    | ok r =>
      rw [exportFetchOne_ok st c._id r hgc] at hco
      have hxr : x = r := (Option.some.inj hco).symm
      have hrid : r._id = c._id := hcons c._id r hgc
      rw [hxr, hrid] at habs
      rw [habs] at hgc
      rw [hget] at hgc
      exact Except.noConfusion hgc
    | error e2 =>
      rw [exportFetchOne_error st c._id e2 hgc] at hco
      exact Option.noConfusion hco
  · intro habs
    simp only [List.mem_flatten] at habs
    rcases habs with ⟨s, hs, hmem2⟩
    rcases List.mem_map.mp hs with ⟨c, -, hco⟩
    rw [← hco] at hmem2
    cases hgc : st.getEntity c._id with
    | ok r =>
      rw [exportFetchOne_ok st c._id r hgc] at hmem2
      simp at hmem2
    | error e2 =>
      rw [exportFetchOne_error st c._id e2 hgc] at hmem2
      split at hmem2
      · next hcond =>
        have hid : entityId = c._id := List.mem_singleton.mp hmem2
        rw [← hid] at hgc
        rw [hget] at hgc
        have he2 : e2 = e := by
          have := Except.error.inj hgc
          exact this.symm
        rcases hcond with ⟨-, hB, -⟩
        rw [← hid] at hB
        exact hB ⟨hmem, by rw [he2]; exact hstatus, by rw [he2]; exact hreason⟩
      · simp at hmem2

/-- Witness for claim C5: concrete store listing the allow-listed id `script`
(whose refetch rejects 404/"Not Found") plus one ordinary entity. -/
theorem exportConfigEntities_unavailable_suppressed_witness :
    "script" ∈ IDM_UNAVAILABLE_ENTITIES
    ∧ storeUnavailableScript.getEntity "script" = Except.error err404NotFound
    ∧ err404NotFound.httpStatus = some 404
    ∧ err404NotFound.httpErrorReason = some "Not Found"
    ∧ ∃ b, (exportConfigEntities storeUnavailableScript state0).outcome =
          Except.ok (some b)
        ∧ b.idm "script" = none
        ∧ "script" ∉ (exportConfigEntities storeUnavailableScript state0).escalatedIds := by
  refine ⟨by decide, rfl, rfl, rfl, ?_⟩
  apply exportConfigEntities_unavailable_suppressed storeUnavailableScript state0
    [{ _id := "script", body := 0 }, { _id := "managed", body := 1 }]
    "script" err404NotFound rfl (by decide) rfl rfl rfl
  intro j r h
  by_cases hj : j = "script"
  · rw [show storeUnavailableScript.getEntity j = Except.error err404NotFound by
      simp [storeUnavailableScript, hj]] at h
    exact Except.noConfusion h
  · rw [show storeUnavailableScript.getEntity j =
        Except.ok { _id := j, body := 1 } by
      simp [storeUnavailableScript, hj]] at h
    rw [← Except.ok.inj h]

/-- Counterexample for claim C6: the id `weird` is not in the known-unavailable
set and its refetch fails with HTTP 404, yet `exportConfigEntities` emits no
error-level escalation for it, because the 404 carries the legacy file-install
message and that suppression branch matches on the message only, not the id. -/
theorem exportConfigEntities_blanket404_counterexample :
    ("weird" ∈ IDM_UNAVAILABLE_ENTITIES → False)
    ∧ storeWeirdFileInstall.getEntity "weird" = Except.error err404FileInstall
    ∧ err404FileInstall.httpStatus = some 404
    ∧ (exportConfigEntities storeWeirdFileInstall state0).escalatedIds = [] := by
  exact ⟨by decide, rfl, rfl, rfl⟩

/-- Claim C6 (amended): for an id not in the known-unavailable set whose
refetch fails with HTTP 404 and whose error message is not the specific legacy
file-install message, `exportConfigEntities` completes the rest of the batch
(every other id the store serves successfully is in the bundle), omits the id
from the bundle, and logs the failure as an error-level escalation —
suppression is allow-listed plus that one message, not blanket. -/
theorem exportConfigEntities_unlisted404_escalates (st : Store) (state : State)
    (l : List Entity) (entityId : String) (e : Err)
    (hl : st.listEntities = Except.ok l)
    (hnot : entityId ∉ IDM_UNAVAILABLE_ENTITIES)
    (hget : st.getEntity entityId = Except.error e)
    (hstatus : e.httpStatus = some 404)
    (hmsg : e.httpMessage ≠
      some "No configuration exists for id org.apache.felix.fileinstall/openidm")
    (hin : entityId ∈ l.map (fun c => c._id))
    (hcons : ∀ (j : String) (r : Entity),
      st.getEntity j = Except.ok r → r._id = j) :
    ∃ b, (exportConfigEntities st state).outcome = Except.ok (some b)
      ∧ b.idm entityId = none
      ∧ entityId ∈ (exportConfigEntities st state).escalatedIds
      ∧ ∀ (j : String) (r : Entity), st.getEntity j = Except.ok r →
          j ∈ l.map (fun c => c._id) → b.idm j = some r := by
  have hsnd : (exportFetchOne st entityId).2 = [entityId] := by
    rw [exportFetchOne_error st entityId e hget]
    rw [if_pos]
    refine ⟨?_, ?_, ?_⟩
    · rintro ⟨hA, -⟩
      rw [hstatus] at hA
      exact absurd (Option.some.inj hA) (by decide)
    · rintro ⟨hm, -⟩
      exact hnot hm
    · rintro ⟨-, hC⟩
      exact hmsg hC
  rw [exportConfigEntities_ok st state l hl]
  refine ⟨_, rfl, ?_, ?_, ?_⟩
  · apply insertResults_idm_of_not_mem
    intro x hx habs
    rcases List.mem_map.mp hx with ⟨c, -, hco⟩
    cases hgc : st.getEntity c._id with
    | ok r =>
      rw [exportFetchOne_ok st c._id r hgc] at hco
      have hxr : x = r := (Option.some.inj hco).symm
      have hrid : r._id = c._id := hcons c._id r hgc
      rw [hxr, hrid] at habs
      rw [habs, hget] at hgc
      exact Except.noConfusion hgc
    | error e2 =>
      rw [exportFetchOne_error st c._id e2 hgc] at hco
      exact Option.noConfusion hco
  · simp only [List.mem_flatten]
    rcases List.mem_map.mp hin with ⟨c, hc, hcid⟩
    refine ⟨(exportFetchOne st entityId).2, ?_, ?_⟩
    · apply List.mem_map.mpr
      exact ⟨c, hc, by rw [hcid]⟩
    · rw [hsnd]
      exact List.mem_singleton.mpr rfl
  · intro j r hjr hjin
    rcases List.mem_map.mp hjin with ⟨c, hc, hcid⟩
    apply insertResults_idm_of_mem
    · exact hcons j r hjr
    · apply List.mem_map.mpr
      refine ⟨c, hc, ?_⟩
      rw [hcid, exportFetchOne_ok st j r hjr]
    · intro x hx hxid
      rcases List.mem_map.mp hx with ⟨c2, -, hco2⟩
      cases hgc2 : st.getEntity c2._id with
      | ok r2 =>
        rw [exportFetchOne_ok st c2._id r2 hgc2] at hco2
        have hxr2 : x = r2 := (Option.some.inj hco2).symm
        have hr2id : r2._id = c2._id := hcons c2._id r2 hgc2
        rw [hxr2]
        rw [hxr2, hr2id] at hxid
        rw [hxid] at hgc2
        rw [hjr] at hgc2
        exact (Except.ok.inj hgc2).symm
      | error e2 =>
        rw [exportFetchOne_error st c2._id e2 hgc2] at hco2
        exact Option.noConfusion hco2

/-- Witness for claim C6: concrete store listing the non-allow-listed id
`custom/endpoint` (refetch rejects with an ordinary 404) plus one ordinary
entity that exports fine. -/
theorem exportConfigEntities_unlisted404_escalates_witness :
    ("custom/endpoint" ∈ IDM_UNAVAILABLE_ENTITIES → False)
    ∧ storeCustom404.getEntity "custom/endpoint" = Except.error err404NotFound
    ∧ err404NotFound.httpStatus = some 404
    ∧ ∃ b, (exportConfigEntities storeCustom404 state0).outcome =
          Except.ok (some b)
        ∧ b.idm "custom/endpoint" = none
        ∧ "custom/endpoint" ∈ (exportConfigEntities storeCustom404 state0).escalatedIds
        ∧ ∀ (j : String) (r : Entity), storeCustom404.getEntity j = Except.ok r →
            j ∈ ([{ _id := "custom/endpoint", body := 0 },
                  { _id := "managed", body := 1 }] : List Entity).map
                  (fun c => c._id) →
            b.idm j = some r := by
  refine ⟨by decide, rfl, rfl, ?_⟩
  apply exportConfigEntities_unlisted404_escalates storeCustom404 state0
    [{ _id := "custom/endpoint", body := 0 }, { _id := "managed", body := 1 }]
    "custom/endpoint" err404NotFound rfl (by decide) rfl rfl
    (by decide) (by decide)
  intro j r h
  by_cases hj : j = "custom/endpoint"
  · rw [show storeCustom404.getEntity j = Except.error err404NotFound by
      simp [storeCustom404, hj]] at h
    exact Except.noConfusion h
  · rw [show storeCustom404.getEntity j = Except.ok { _id := j, body := 1 } by
      simp [storeCustom404, hj]] at h
    rw [← Except.ok.inj h]

theorem importLoopSt_spec (putErr : String → Entity → Option Err) (state : State)
    (v : Entity → Bool) (options : ConfigEntityImportOptions)
    (l : List (String × Entity)) :
    ∀ (response : List Entity) (errors : List Err) (s : StoreState),
    importLoopSt putErr state v options l response errors s =
      { response := response ++ l.filterMap (entryAppliedResultSt putErr v options)
      , errors := errors ++ l.filterMap (entryRecordedFailureSt putErr state v options)
      , store := l.foldl (stepState putErr v options) s } := by
  induction l with
  | nil => intro response errors s; simp [importLoopSt]
  | cons p rest ih =>
    obtain ⟨entityId, entityData⟩ := p
    intro response errors s
    by_cases hval : options.validate = true ∧ v entityData = false
    · simp only [importLoopSt, if_pos hval, ih, List.filterMap_cons,
        entryAppliedResultSt, entryRecordedFailureSt, List.foldl_cons, stepState]
      simp [hval]
    · cases hput : putErr entityId entityData with
      | none =>
        simp only [importLoopSt, if_neg hval, putConfigEntitySt, hput, ih,
          List.filterMap_cons, entryAppliedResultSt, entryRecordedFailureSt,
          List.foldl_cons, stepState]
        simp [hval, hput]
      | some e0 =>
        by_cases hsup : importSuppressed state entityId
          (Err.frodo ("Error updating config entity " ++ entityId) (some e0))
        · simp only [importLoopSt, if_neg hval, putConfigEntitySt, hput,
            if_pos hsup, ih, List.filterMap_cons, entryAppliedResultSt,
            entryRecordedFailureSt, List.foldl_cons, stepState]
        · simp only [importLoopSt, if_neg hval, putConfigEntitySt, hput,
            if_neg hsup, ih, List.filterMap_cons, entryAppliedResultSt,
            entryRecordedFailureSt, List.foldl_cons, stepState]
          simp [hval, hput, hsup]

theorem foldl_stepState_eq_override (putErr : String → Entity → Option Err)
    (v : Entity → Bool) (options : ConfigEntityImportOptions)
    (l : List (String × Entity)) :
    ∀ s : StoreState,
    l.foldl (stepState putErr v options) s =
      overrideState s (writesOf putErr v options l) := by
  induction l with
  | nil =>
    intro s
    funext k
    simp [overrideState, writesOf]
  | cons p rest ih =>
    intro s
    rw [List.foldl_cons, ih]
    funext k
    simp only [overrideState, writesOf]
    cases hw : writesOf putErr v options rest k with
    | some v2 => rfl
    | none =>
      by_cases hc : ¬(options.validate = true ∧ v p.2 = false) ∧
          (putErr p.1 p.2).isNone = true ∧ k = p.1
      · rw [if_pos hc]
        obtain ⟨hval, hput, hk⟩ := hc
        have hput2 : putErr p.1 p.2 = none := Option.isNone_iff_eq_none.mp hput
        simp [stepState, if_neg hval, hput2, hk]
      · rw [if_neg hc]
        unfold stepState
        by_cases hval : options.validate = true ∧ v p.2 = false
        · rw [if_pos hval]
        · rw [if_neg hval]
          cases hput : putErr p.1 p.2 with
          | some e0 => rfl
          | none =>
            have hk : ¬ k = p.1 := by
              intro hk
              exact hc ⟨hval, by rw [hput]; rfl, hk⟩
            simp [hk]

theorem overrideState_idem (s : StoreState) (w : String → Option Entity) :
    overrideState (overrideState s w) w = overrideState s w := by
  funext k
  unfold overrideState
  cases w k <;> rfl

/-- Claim C9: running `importConfigEntities` twice in succession with the same
bundle, options and put-failure policy yields the same final store state (and
the same settled outcome). Each per-id write is an upsert (create-or-replace
via PUT), so whether an individual write fails is a policy of the id and
payload alone — in particular the second pass raises no already-exists
failures and simply re-writes the same entities. -/
theorem importConfigEntitiesSt_idempotent (putErr : String → Entity → Option Err)
    (state : State) (areScriptHooksValid : Entity → Bool)
    (options : ConfigEntityImportOptions) (importData : List (String × Entity))
    (s : StoreState) :
    importConfigEntitiesSt putErr state areScriptHooksValid options importData
      (importConfigEntitiesSt putErr state areScriptHooksValid options
        importData s).2 =
      importConfigEntitiesSt putErr state areScriptHooksValid options
        importData s := by
  unfold importConfigEntitiesSt
  rw [importLoopSt_spec, importLoopSt_spec]
  simp only []
  rw [foldl_stepState_eq_override, foldl_stepState_eq_override,
    overrideState_idem]

theorem err_ne_self_wrap (e : Err) (msg : String) :
    e ≠ Err.frodo msg (some e) := by
  intro hcontra
  have hd : (Err.frodo msg (some e)).depth = e.depth + 1 := rfl
  rw [← hcontra] at hd
  omega

/-- Claim C10: when the underlying store delete rejects, the single-entity
`deleteConfigEntity` rejects with the underlying error unwrapped — the
surrounding catch that would wrap it in
`FrodoError("Error deleting config entity ...")` is unreachable for
asynchronous failures because the promise is returned without being awaited. -/
theorem deleteConfigEntity_unwrapped (st : Store) (entityId : String) (e : Err)
    (h : st.deleteEntity entityId = Except.error e) :
    deleteConfigEntity st entityId = Except.error e
    ∧ deleteConfigEntity st entityId ≠
        Except.error
          (Err.frodo ("Error deleting config entity " ++ entityId) (some e)) := by
  have h1 : deleteConfigEntity st entityId = Except.error e := by
    unfold deleteConfigEntity apiDeleteConfigEntity tryReturnCatchWrap
    rw [h]
  refine ⟨h1, ?_⟩
  rw [h1]
  intro hcontra
  exact err_ne_self_wrap e ("Error deleting config entity " ++ entityId)
    (Except.error.inj hcontra)

/-- Witness for claim C10: the concrete store whose delete call rejects; the
ops-layer delete rejects with the raw store error, not the wrapped form. -/
theorem deleteConfigEntity_unwrapped_witness :
    storeDeleteFails.deleteEntity "managed" = Except.error errListing
    ∧ (deleteConfigEntity storeDeleteFails "managed" = Except.error errListing
      ∧ deleteConfigEntity storeDeleteFails "managed" ≠
          Except.error
            (Err.frodo ("Error deleting config entity " ++ "managed")
              (some errListing))) :=
  ⟨rfl, deleteConfigEntity_unwrapped storeDeleteFails "managed" errListing rfl⟩
